import Mathlib

/-!
Verification of the student-loan repayment simulator (`src/python/model.py`).

The Python code works on `float` values and `datetime` dates.  The shallow
embedding below uses exact rationals (`ℚ`) for all monetary amounts and a
`Date` structure ordered lexicographically by year, month, day, which is how
`datetime` comparison behaves.  The `while` loop of `simulate` is embedded as
a fuel-indexed recursion; the fuel `months_bound` is the number of calendar
months from the start date to the write-off date, and we prove that this fuel
always suffices (claim C7).
-/

/-- Calendar date: year, month, day.  Mirrors the fields of Python
`datetime` used by the model (comparison is lexicographic). -/
structure Date where
  year : ℕ
  month : ℕ
  day : ℕ
deriving DecidableEq, Repr

/-- Lexicographic strict order on dates, as Python `datetime` comparison. -/
def Date.ltB (a b : Date) : Bool :=
  decide (a.year < b.year) ||
    (decide (a.year = b.year) &&
      (decide (a.month < b.month) ||
        (decide (a.month = b.month) && decide (a.day < b.day))))

/-- Linear month index of a date (used only for termination reasoning). -/
def Date.idx (d : Date) : ℕ := 12 * d.year + d.month

/-- Gregorian leap-year rule, as implemented by Python `calendar.isleap`. -/
def isLeapYear (y : ℕ) : Bool :=
  decide (y % 4 = 0) && (decide (y % 100 ≠ 0) || decide (y % 400 = 0))

/-- Number of days in a month of the Gregorian calendar: models the Python
standard-library call `calendar.monthrange(y, m)[1]` used at line 208 of
`model.py` (February has 29 days in leap years, 28 otherwise). -/
def daysInMonth (y m : ℕ) : ℕ :=
  if m = 2 then (if isLeapYear y then 29 else 28)
  else if m = 4 ∨ m = 6 ∨ m = 9 ∨ m = 11 then 30
  else 31

/-- Python class `RepaymentModel`: upfront and monthly fixed payment amounts
(`model.py` lines 6-23). -/
structure RepaymentModel where
  upfront : ℚ
  monthly : ℚ
deriving DecidableEq, Repr

/-- Immutable configuration of `StudentLoanModel` (`model.py` lines 43-80).
`increase_type` is the literal string compared against `"percent"`. -/
structure StudentLoanModel where
  current_date : Date
  loan_value : ℚ
  write_off_date : Date
  initial_salary : ℚ
  salary_increase : ℚ
  repayment : RepaymentModel
  increase_type : String
  repayment_threshold : ℚ
  repayment_rate : ℚ
  interest_rate : ℚ

/-- Method `_apply_interest_monthly` (`model.py` lines 97-108). -/
def apply_interest_monthly (m : StudentLoanModel) (balance : ℚ) : ℚ :=
  let monthly_interest_rate := m.interest_rate / 12
  balance * (1 + monthly_interest_rate)

/-- Method `_apply_salary_increase` (`model.py` lines 110-123). -/
def apply_salary_increase (m : StudentLoanModel) (salary : ℚ) : ℚ :=
  if m.increase_type = "percent" then salary * (1 + m.salary_increase / 100)
  else salary + m.salary_increase

/-- The bracket table of `_calculate_income_tax` (`model.py` lines 136-141);
`none` stands for the unbounded top bracket (`float('inf')` in the source). -/
def tax_brackets : List (Option ℚ × ℚ) :=
  [(some 12570, 0.0), (some 50270, 0.20), (some 125140, 0.40), (none, 0.45)]

/-- The bracket loop of `_calculate_income_tax` (`model.py` lines 143-152):
arguments are the remaining bracket list, `prev_limit`, `remaining_salary`
and the accumulated `tax`.  For the unbounded bracket,
`min(inf - prev_limit, remaining_salary)` is `remaining_salary`. -/
def tax_loop : List (Option ℚ × ℚ) → ℚ → ℚ → ℚ → ℚ
  | [], _prev_limit, _remaining_salary, tax => tax
  | (limit, rate) :: rest, prev_limit, remaining_salary, tax =>
      let taxable_income : ℚ :=
        match limit with
        | some l => min (l - prev_limit) remaining_salary
        | none => remaining_salary
      if taxable_income ≤ 0 then tax
      else
        tax_loop rest
          (match limit with | some l => l | none => prev_limit)
          (remaining_salary - taxable_income)
          (tax + taxable_income * rate)

/-- Method `_calculate_income_tax` (`model.py` lines 125-154). -/
def calculate_income_tax (salary : ℚ) : ℚ :=
  tax_loop tax_brackets 0 salary 0

/-- Method `_calculate_national_insurance` (`model.py` lines 156-179). -/
def calculate_national_insurance (salary : ℚ) : ℚ :=
  let primary_threshold : ℚ := 12570
  let upper_earnings_limit : ℚ := 50270
  let higher_rate : ℚ := 0.02
  let main_rate : ℚ := 0.12
  if primary_threshold < salary then
    if salary ≤ upper_earnings_limit then
      (salary - primary_threshold) * main_rate
    else
      (upper_earnings_limit - primary_threshold) * main_rate +
        (salary - upper_earnings_limit) * higher_rate
  else 0

/-- Method `_salary_repayment` (`model.py` lines 181-192). -/
def salary_repayment (m : StudentLoanModel) (salary : ℚ) : ℚ :=
  let repayable_income := max 0 (salary - m.repayment_threshold)
  repayable_income * m.repayment_rate

/-- Method `_get_next_month_date` (`model.py` lines 194-209): last calendar day of
the month after `current_date`. -/
def get_next_month_date (current_date : Date) : Date :=
  let year := current_date.year
  let month := current_date.month
  let next_month := month % 12 + 1
  let next_year := if month < next_month then year else year + 1
  let last_day_next_month := daysInMonth next_year next_month
  ⟨next_year, next_month, last_day_next_month⟩

/-- The mutable state of a `StudentLoanModel` instance together with the
local variables of `simulate`: instance fields `loan_balance`,
`total_repaid`, `net_salary_lost`, `repaid_in_full`, `months_repaying`, the
six history lists (`model.py` lines 82-95), and the loop locals
`current_date`, `salary`, `current_year` (`model.py` lines 235-239). -/
structure LoopState where
  loan_balance : ℚ
  total_repaid : ℚ
  net_salary_lost : ℚ
  repaid_in_full : Bool
  months_repaying : ℕ
  dates : List Date
  salaries : List ℚ
  balances : List ℚ
  total_repayments : List ℚ
  net_salary_lost_history : List ℚ
  salary_after_tax_history : List ℚ
  current_date : Date
  salary : ℚ
  current_year : ℕ
deriving DecidableEq, Repr

/-- One iteration of the `while` body of `simulate`
(`model.py` lines 241-288), including the final clamp-and-flag step
`if self.loan_balance <= 0` (after which the loop guard is false anyway,
so embedding the `break` as plain continuation is faithful). -/
def simulate_step (m : StudentLoanModel) (s : LoopState) : LoopState :=
  let dates := s.dates ++ [s.current_date]
  let salaries := s.salaries ++ [s.salary]
  let balances := s.balances ++ [s.loan_balance]
  let total_repayments := s.total_repayments ++ [s.total_repaid]
  let net_salary_lost_history := s.net_salary_lost_history ++ [s.net_salary_lost]
  let income_tax_no_repayment := calculate_income_tax s.salary
  let ni_contrib_no_repayment := calculate_national_insurance s.salary
  let salary_after_tax_no_repayment :=
    s.salary - income_tax_no_repayment - ni_contrib_no_repayment
  let repayment_from_salary := salary_repayment m s.salary
  let salary_after_repayment := s.salary - repayment_from_salary
  let income_tax_with_repayment := calculate_income_tax salary_after_repayment
  let ni_contrib_with_repayment := calculate_national_insurance salary_after_repayment
  let salary_after_tax_with_repayment :=
    salary_after_repayment - income_tax_with_repayment - ni_contrib_with_repayment
  let salary_after_tax_history :=
    s.salary_after_tax_history ++ [salary_after_tax_with_repayment]
  let net_salary_loss := salary_after_tax_no_repayment - salary_after_tax_with_repayment
  let net_salary_lost := s.net_salary_lost + net_salary_loss / 12
  let monthly_repayment_from_salary := salary_repayment m s.salary / 12
  let monthly_fixed_repayment := m.repayment.monthly
  let total_monthly_repayment := monthly_repayment_from_salary + monthly_fixed_repayment
  let actual_repayment := min total_monthly_repayment s.loan_balance
  let loan_balance_after_repayment := s.loan_balance - actual_repayment
  let total_repaid := s.total_repaid + actual_repayment
  let loan_balance_after_interest := apply_interest_monthly m loan_balance_after_repayment
  let salary_next :=
    if s.current_year < s.current_date.year then apply_salary_increase m s.salary
    else s.salary
  let current_year_next :=
    if s.current_year < s.current_date.year then s.current_date.year
    else s.current_year
  let months_repaying := s.months_repaying + 1
  let current_date_next := get_next_month_date s.current_date
  if loan_balance_after_interest ≤ 0 then
    { loan_balance := 0
      total_repaid := total_repaid
      net_salary_lost := net_salary_lost
      repaid_in_full := true
      months_repaying := months_repaying
      dates := dates
      salaries := salaries
      balances := balances
      total_repayments := total_repayments
      net_salary_lost_history := net_salary_lost_history
      salary_after_tax_history := salary_after_tax_history
      current_date := current_date_next
      salary := salary_next
      current_year := current_year_next }
  else
    { loan_balance := loan_balance_after_interest
      total_repaid := total_repaid
      net_salary_lost := net_salary_lost
      repaid_in_full := s.repaid_in_full
      months_repaying := months_repaying
      dates := dates
      salaries := salaries
      balances := balances
      total_repayments := total_repayments
      net_salary_lost_history := net_salary_lost_history
      salary_after_tax_history := salary_after_tax_history
      current_date := current_date_next
      salary := salary_next
      current_year := current_year_next }

/-- The `while` loop of `simulate` (`model.py` line 241), indexed by fuel.
Claim C7 shows the fuel `months_bound` below always suffices, so this is a
faithful embedding of the unbounded loop. -/
def simulate_loop (m : StudentLoanModel) : ℕ → LoopState → LoopState
  | 0, s => s
  | Nat.succ fuel, s =>
      if Date.ltB s.current_date m.write_off_date = true ∧ 0 < s.loan_balance then
        simulate_loop m fuel (simulate_step m s)
      else s

/-- Number of calendar months from the start date to (and including the
month of) the write-off date; fuel for `simulate_loop`. -/
def months_bound (m : StudentLoanModel) : ℕ :=
  Date.idx m.write_off_date + 1 - Date.idx m.current_date

/-- The reset phase of `simulate` (`model.py` lines 217-239): every mutable
field of the instance is overwritten, the six history lists are cleared,
the upfront payment (capped at the balance) is applied, and the loop locals
are initialised.  `prev` is the instance state left by any earlier call. -/
def reset_state (m : StudentLoanModel) (prev : LoopState) : LoopState :=
  let s : LoopState :=
    { prev with
      loan_balance := m.loan_value
      total_repaid := 0
      net_salary_lost := 0
      months_repaying := 0
      repaid_in_full := false
      dates := []
      salaries := []
      balances := []
      total_repayments := []
      net_salary_lost_history := []
      salary_after_tax_history := []
      current_date := m.current_date
      salary := m.initial_salary
      current_year := m.current_date.year }
  let upfront_payment := min m.repayment.upfront s.loan_balance
  { s with
    loan_balance := s.loan_balance - upfront_payment
    total_repaid := s.total_repaid + upfront_payment }

/-- Method `simulate` (`model.py` lines 211-288): reset, upfront payment, then the
monthly loop, starting from the instance state `prev` left by earlier use. -/
def simulate (m : StudentLoanModel) (prev : LoopState) : LoopState :=
  simulate_loop m (months_bound m) (reset_state m prev)

/-- A fresh instance state, as set up by `__init__` before any `simulate`
call (`model.py` lines 82-95), for a given configuration. -/
def blank_state (m : StudentLoanModel) : LoopState :=
  { loan_balance := m.loan_value
    total_repaid := 0
    net_salary_lost := 0
    repaid_in_full := false
    months_repaying := 0
    dates := []
    salaries := []
    balances := []
    total_repayments := []
    net_salary_lost_history := []
    salary_after_tax_history := []
    current_date := m.current_date
    salary := m.initial_salary
    current_year := m.current_date.year }

/-- Round-half-to-even on ℚ: the rounding mode of Python `round`
(ignoring binary floating-point representation error). -/
def roundHalfEven (x : ℚ) : ℤ :=
  if x - ⌊x⌋ = 1 / 2 then (if ⌊x⌋ % 2 = 0 then ⌊x⌋ else ⌊x⌋ + 1)
  else ⌊x + 1 / 2⌋

/-- Python `round(x, 2)` over the exact rational embedding. -/
def round2 (x : ℚ) : ℚ := (roundHalfEven (x * 100) : ℚ) / 100

/-- The record returned by `get_summary` (`model.py` lines 290-311), with
the dictionary keys as fields. -/
structure Summary where
  total_repaid : ℚ
  net_salary_lost : ℚ
  remaining_loan_balance : ℚ
  loan_repaid_in_full : Bool
  months_repaying : ℕ
  years_repaying : ℕ
  total_net_salary_lost_plus_repayments : ℚ
deriving DecidableEq, Repr

/-- Method `get_summary` (`model.py` lines 290-311) on the state left by
`simulate`. -/
def get_summary (m : StudentLoanModel) (s : LoopState) : Summary :=
  let months := s.months_repaying
  let years := months / 12 + (if months % 12 ≠ 0 then 1 else 0)
  let total_repayments := m.repayment.upfront + m.repayment.monthly * (months : ℚ)
  let total_net_salary_lost_plus_repayments := s.net_salary_lost + total_repayments
  { total_repaid := round2 s.total_repaid
    net_salary_lost := round2 s.net_salary_lost
    remaining_loan_balance := round2 s.loan_balance
    loan_repaid_in_full := s.repaid_in_full
    months_repaying := months
    years_repaying := years
    total_net_salary_lost_plus_repayments := round2 total_net_salary_lost_plus_repayments }

/-- After-tax income for a given gross salary (the quantity
`salary - income_tax - ni_contrib` computed twice in the loop body,
`model.py` lines 249-257). -/
def net_of (x : ℚ) : ℚ := x - calculate_income_tax x - calculate_national_insurance x

/-- The loop guard of `simulate` (`model.py` line 241). -/
def loop_guard (m : StudentLoanModel) (s : LoopState) : Prop :=
  Date.ltB s.current_date m.write_off_date = true ∧ 0 < s.loan_balance

instance (m : StudentLoanModel) (s : LoopState) : Decidable (loop_guard m s) := by
  unfold loop_guard; infer_instance

/-- A state on which the `while` loop of `simulate` has exited. -/
def loop_done (m : StudentLoanModel) (s : LoopState) : Prop := ¬ loop_guard m s

/-- A small concrete configuration used to exercise the theorems: one month
from the start date to the write-off date, salary 1200 all of it above the
threshold 0, repayment rate 12%, zero interest, no plan payments. -/
def sample_model : StudentLoanModel :=
  { current_date := ⟨2024, 11, 30⟩
    loan_value := 100
    write_off_date := ⟨2024, 12, 15⟩
    initial_salary := 1200
    salary_increase := 0
    repayment := ⟨0, 0⟩
    increase_type := "percent"
    repayment_threshold := 0
    repayment_rate := 0.12
    interest_rate := 0 }

/-- A configuration whose upfront payment exceeds the principal. -/
def sample_payoff_model : StudentLoanModel :=
  { sample_model with loan_value := 50, repayment := ⟨80, 0⟩ }

/-- A malformed configuration: the write-off date precedes the start date. -/
def sample_bad_model : StudentLoanModel :=
  { sample_model with current_date := ⟨2024, 12, 15⟩, write_off_date := ⟨2024, 11, 30⟩ }

/-! ## Closed forms of the tax and insurance calculators -/

set_option maxHeartbeats 2000000 in
/-- Closed form of the bracket loop of `_calculate_income_tax`. -/
theorem calculate_income_tax_eq (x : ℚ) :
    calculate_income_tax x =
      if x ≤ 12570 then 0
      else if x ≤ 50270 then (x - 12570) * 0.20
      else if x ≤ 125140 then 7540 + (x - 50270) * 0.40
      else 37488 + (x - 125140) * 0.45 := by
  simp only [calculate_income_tax, tax_brackets, tax_loop, min_def]
  norm_num
  split_ifs <;> linarith

/-- Closed form of `_calculate_national_insurance`. -/
theorem calculate_national_insurance_eq (x : ℚ) :
    calculate_national_insurance x =
      if x ≤ 12570 then 0
      else if x ≤ 50270 then (x - 12570) * 0.12
      else 4524 + (x - 50270) * 0.02 := by
  simp only [calculate_national_insurance]
  norm_num
  split_ifs <;> linarith

/-- After-tax income is monotone in gross salary: every marginal rate of
tax plus insurance is below 100%. -/
theorem net_of_mono {x y : ℚ} (h : x ≤ y) : net_of x ≤ net_of y := by
  simp only [net_of, calculate_income_tax_eq, calculate_national_insurance_eq]
  split_ifs <;> linarith

/-! ## Field equations for one loop iteration -/

theorem step_dates (m : StudentLoanModel) (s : LoopState) :
    (simulate_step m s).dates = s.dates ++ [s.current_date] := by
  simp only [simulate_step]; split <;> rfl

theorem step_salaries (m : StudentLoanModel) (s : LoopState) :
    (simulate_step m s).salaries = s.salaries ++ [s.salary] := by
  simp only [simulate_step]; split <;> rfl

theorem step_balances (m : StudentLoanModel) (s : LoopState) :
    (simulate_step m s).balances = s.balances ++ [s.loan_balance] := by
  simp only [simulate_step]; split <;> rfl

theorem step_total_repayments (m : StudentLoanModel) (s : LoopState) :
    (simulate_step m s).total_repayments = s.total_repayments ++ [s.total_repaid] := by
  simp only [simulate_step]; split <;> rfl

theorem step_net_salary_lost_history (m : StudentLoanModel) (s : LoopState) :
    (simulate_step m s).net_salary_lost_history
      = s.net_salary_lost_history ++ [s.net_salary_lost] := by
  simp only [simulate_step]; split <;> rfl

theorem step_months_repaying (m : StudentLoanModel) (s : LoopState) :
    (simulate_step m s).months_repaying = s.months_repaying + 1 := by
  simp only [simulate_step]; split <;> rfl

theorem step_current_date (m : StudentLoanModel) (s : LoopState) :
    (simulate_step m s).current_date = get_next_month_date s.current_date := by
  simp only [simulate_step]; split <;> rfl

theorem step_total_repaid (m : StudentLoanModel) (s : LoopState) :
    (simulate_step m s).total_repaid
      = s.total_repaid
        + min (salary_repayment m s.salary / 12 + m.repayment.monthly) s.loan_balance := by
  simp only [simulate_step]; split <;> rfl

theorem step_net_salary_lost (m : StudentLoanModel) (s : LoopState) :
    (simulate_step m s).net_salary_lost
      = s.net_salary_lost
        + (net_of s.salary - net_of (s.salary - salary_repayment m s.salary)) / 12 := by
  simp only [simulate_step, net_of]; split <;> rfl

/-- The balance after one iteration: the post-interest balance, clamped to 0
together with the `repaid_in_full` flag exactly when it is ≤ 0. -/
theorem step_loan_balance (m : StudentLoanModel) (s : LoopState) :
    (0 ≤ (simulate_step m s).loan_balance) ∧
      ((simulate_step m s).repaid_in_full = true →
        (simulate_step m s).loan_balance = 0 ∨ s.repaid_in_full = true) := by
  simp only [simulate_step]
  split
  · exact ⟨le_refl 0, fun _ => Or.inl rfl⟩
  · rename_i hpos
    push_neg at hpos
    exact ⟨le_of_lt hpos, fun h => Or.inr h⟩

/-! ## Generic loop lemmas -/

theorem simulate_loop_succ (m : StudentLoanModel) (fuel : ℕ) (s : LoopState) :
    simulate_loop m (fuel + 1) s
      = if loop_guard m s then simulate_loop m fuel (simulate_step m s) else s := rfl

/-- If the guard is already false, the loop is the identity. -/
theorem simulate_loop_of_done (m : StudentLoanModel) (fuel : ℕ) (s : LoopState)
    (h : loop_done m s) : simulate_loop m fuel s = s := by
  cases fuel with
  | zero => rfl
  | succ fuel => rw [simulate_loop_succ, if_neg h]

/-! ## Date arithmetic and termination -/

/-- Stepping to the last day of the next month advances the linear month
index by exactly one (for any real calendar month number). -/
theorem idx_get_next_month (d : Date) (h : d.month ≤ 12) :
    Date.idx (get_next_month_date d) = Date.idx d + 1 := by
  simp only [get_next_month_date, Date.idx]
  split_ifs <;> omega

/-- The date produced by `get_next_month_date` has a month number in 1..12. -/
theorem month_get_next_month (d : Date) :
    1 ≤ (get_next_month_date d).month ∧ (get_next_month_date d).month ≤ 12 := by
  simp only [get_next_month_date]
  omega

/-- Lexicographically smaller dates have a smaller or equal month index. -/
theorem ltB_idx_le {a b : Date} (hm : a.month ≤ 12) (h : Date.ltB a b = true) :
    Date.idx a ≤ Date.idx b := by
  simp only [Date.ltB, Bool.or_eq_true, Bool.and_eq_true, decide_eq_true_eq] at h
  simp only [Date.idx]
  omega

/-- If the fuel covers the months remaining to the write-off date, the loop
reaches a state where its guard is false. -/
theorem simulate_loop_terminates (m : StudentLoanModel) :
    ∀ fuel s, s.current_date.month ≤ 12 →
      Date.idx m.write_off_date + 1 ≤ Date.idx s.current_date + fuel →
      loop_done m (simulate_loop m fuel s) := by
  intro fuel
  induction fuel with
  | zero =>
      intro s hm hidx hg
      have := ltB_idx_le hm hg.1
      omega
  | succ fuel ih =>
      intro s hm hidx
      rw [simulate_loop_succ]
      by_cases hg : loop_guard m s
      · rw [if_pos hg]
        apply ih
        · rw [step_current_date]; exact (month_get_next_month s.current_date).2
        · rw [step_current_date, idx_get_next_month s.current_date hm]; omega
      · rw [if_neg hg]; exact hg

/-- The loop runs at most `fuel` iterations, each adding one month. -/
theorem simulate_loop_months (m : StudentLoanModel) :
    ∀ fuel s, (simulate_loop m fuel s).months_repaying ≤ s.months_repaying + fuel := by
  intro fuel
  induction fuel with
  | zero => intro s; exact le_refl _
  | succ fuel ih =>
      intro s
      rw [simulate_loop_succ]
      by_cases hg : loop_guard m s
      · rw [if_pos hg]
        have := ih (simulate_step m s)
        rw [step_months_repaying] at this
        omega
      · rw [if_neg hg]; omega

/-- The reset phase of `simulate` overwrites every mutable field: its result
does not depend on the state the previous call left behind. -/
theorem reset_state_eq (m : StudentLoanModel) (prev : LoopState) :
    reset_state m prev =
      { loan_balance := m.loan_value - min m.repayment.upfront m.loan_value
        total_repaid := 0 + min m.repayment.upfront m.loan_value
        net_salary_lost := 0
        repaid_in_full := false
        months_repaying := 0
        dates := []
        salaries := []
        balances := []
        total_repayments := []
        net_salary_lost_history := []
        salary_after_tax_history := []
        current_date := m.current_date
        salary := m.initial_salary
        current_year := m.current_date.year } := rfl

/-- Invariant rule for the simulation loop: any property preserved by the
loop body under the loop guard holds after the loop. -/
theorem simulate_loop_inv (m : StudentLoanModel) (P : LoopState → Prop)
    (hstep : ∀ s, loop_guard m s → P s → P (simulate_step m s)) :
    ∀ fuel s, P s → P (simulate_loop m fuel s) := by
  intro fuel
  induction fuel with
  | zero => intro s h; exact h
  | succ fuel ih =>
      intro s h
      rw [simulate_loop_succ]
      by_cases hg : loop_guard m s
      · rw [if_pos hg]; exact ih _ (hstep s hg h)
      · rw [if_neg hg]; exact h

/-! ## Claim theorems -/

/-- C4: the income tax function is a pure progressive-bracket computation:
it returns 0 for every salary up to 12570, matches the stated amounts at the
50270 and 125140 bracket boundaries, and the top bracket is unbounded, every
salary above 125140 being taxed marginally at 45%. -/
theorem income_tax_brackets_spec :
    (∀ s : ℚ, s ≤ 12570 → calculate_income_tax s = 0) ∧
    calculate_income_tax 50270 = (50270 - 12570) * 0.20 ∧
    calculate_income_tax 125140
      = calculate_income_tax 50270 + (125140 - 50270) * 0.40 ∧
    (∀ s : ℚ, 125140 ≤ s →
      calculate_income_tax s = calculate_income_tax 125140 + (s - 125140) * 0.45) := by
  refine ⟨fun s hs => ?_, ?_, ?_, fun s hs => ?_⟩
  · rw [calculate_income_tax_eq, if_pos hs]
  · rw [calculate_income_tax_eq]; norm_num
  · rw [calculate_income_tax_eq, calculate_income_tax_eq]; norm_num
  · simp only [calculate_income_tax_eq]
    split_ifs <;> linarith

/-- Witness for C4 at the boundary salary 12570 and at a salary far inside
the unbounded top bracket. -/
theorem income_tax_brackets_spec_witness :
    ((12570 : ℚ) ≤ 12570 ∧ calculate_income_tax 12570 = 0) ∧
    ((125140 : ℚ) ≤ 200000 ∧ calculate_income_tax 200000
        = calculate_income_tax 125140 + (200000 - 125140) * 0.45) :=
  ⟨⟨le_refl _, income_tax_brackets_spec.1 12570 (le_refl _)⟩,
   ⟨by norm_num, income_tax_brackets_spec.2.2.2 200000 (by norm_num)⟩⟩

/-- C8: for every real calendar date, `get_next_month_date` returns the last
day of the immediately following month: the day is the month length of the
resulting month, the month index advances by exactly one, the resulting
month number is again in 1..12, and December rolls over to January of the
next year.  The concrete conjuncts check a leap-year February and the
December-to-January rollover. -/
theorem next_month_date_spec (d : Date) (h1 : 1 ≤ d.month) (h2 : d.month ≤ 12) :
    (get_next_month_date d).day
        = daysInMonth (get_next_month_date d).year (get_next_month_date d).month ∧
    Date.idx (get_next_month_date d) = Date.idx d + 1 ∧
    (1 ≤ (get_next_month_date d).month ∧ (get_next_month_date d).month ≤ 12) ∧
    (d.month = 12 →
      (get_next_month_date d).year = d.year + 1 ∧ (get_next_month_date d).month = 1) ∧
    get_next_month_date ⟨2024, 1, 15⟩ = ⟨2024, 2, 29⟩ ∧
    get_next_month_date ⟨2023, 1, 15⟩ = ⟨2023, 2, 28⟩ ∧
    get_next_month_date ⟨2023, 12, 31⟩ = ⟨2024, 1, 31⟩ := by
  refine ⟨rfl, idx_get_next_month d h2, month_get_next_month d, fun h12 => ?_, by decide,
    by decide, by decide⟩
  simp only [get_next_month_date, h12]
  norm_num

/-- Witness for C8 at a mid-year date and at a December date. -/
theorem next_month_date_spec_witness :
    (1 ≤ (2 : ℕ) ∧ (2 : ℕ) ≤ 12 ∧
      Date.idx (get_next_month_date ⟨2024, 2, 5⟩) = Date.idx ⟨2024, 2, 5⟩ + 1) ∧
    (1 ≤ (12 : ℕ) ∧ (12 : ℕ) ≤ 12 ∧
      (get_next_month_date ⟨2023, 12, 31⟩).year = 2024) :=
  ⟨⟨by decide, by decide, (next_month_date_spec ⟨2024, 2, 5⟩ (by decide) (by decide)).2.1⟩,
   ⟨by decide, by decide, by
      have h := (next_month_date_spec ⟨2023, 12, 31⟩ (by decide) (by decide)).2.2.2.1 rfl
      exact h.1⟩⟩

/-- C6: `simulate` fully resets all mutable state and clears the history
before iterating, so a second call on the unmodified instance replays the
first deterministically: all six recorded series, the whole state, and the
summary coincide. -/
theorem simulate_idempotent_spec (m : StudentLoanModel) (prev : LoopState) :
    (simulate m (simulate m prev)).dates = (simulate m prev).dates ∧
    (simulate m (simulate m prev)).salaries = (simulate m prev).salaries ∧
    (simulate m (simulate m prev)).balances = (simulate m prev).balances ∧
    (simulate m (simulate m prev)).total_repayments = (simulate m prev).total_repayments ∧
    (simulate m (simulate m prev)).net_salary_lost_history
      = (simulate m prev).net_salary_lost_history ∧
    (simulate m (simulate m prev)).salary_after_tax_history
      = (simulate m prev).salary_after_tax_history ∧
    simulate m (simulate m prev) = simulate m prev ∧
    get_summary m (simulate m (simulate m prev)) = get_summary m (simulate m prev) :=
  ⟨rfl, rfl, rfl, rfl, rfl, rfl, rfl, rfl⟩

/-- Explicit evaluation of the one-month run of `sample_model`: tax and
insurance are 0 at salary 1200, the income-based repayment is 144 a year
(12 a month), and the loop stops at the write-off date. -/
theorem sample_run_eq :
    simulate sample_model (blank_state sample_model)
      = { loan_balance := 88
          total_repaid := 12
          net_salary_lost := 12
          repaid_in_full := false
          months_repaying := 1
          dates := [⟨2024, 11, 30⟩]
          salaries := [1200]
          balances := [100]
          total_repayments := [0]
          net_salary_lost_history := [0]
          salary_after_tax_history := [1056]
          current_date := ⟨2024, 12, 31⟩
          salary := 1200
          current_year := 2024 } := by
  have hb : months_bound sample_model = 2 := rfl
  have h0 : reset_state sample_model (blank_state sample_model)
      = { loan_balance := 100
          total_repaid := 0
          net_salary_lost := 0
          repaid_in_full := false
          months_repaying := 0
          dates := []
          salaries := []
          balances := []
          total_repayments := []
          net_salary_lost_history := []
          salary_after_tax_history := []
          current_date := ⟨2024, 11, 30⟩
          salary := 1200
          current_year := 2024 } := by
    rw [reset_state_eq]
    norm_num [sample_model, min_def]
  have h1 : simulate_step sample_model
      { loan_balance := 100
        total_repaid := 0
        net_salary_lost := 0
        repaid_in_full := false
        months_repaying := 0
        dates := []
        salaries := []
        balances := []
        total_repayments := []
        net_salary_lost_history := []
        salary_after_tax_history := []
        current_date := ⟨2024, 11, 30⟩
        salary := 1200
        current_year := 2024 }
      = { loan_balance := 88
          total_repaid := 12
          net_salary_lost := 12
          repaid_in_full := false
          months_repaying := 1
          dates := [⟨2024, 11, 30⟩]
          salaries := [1200]
          balances := [100]
          total_repayments := [0]
          net_salary_lost_history := [0]
          salary_after_tax_history := [1056]
          current_date := ⟨2024, 12, 31⟩
          salary := 1200
          current_year := 2024 } := by
    simp only [simulate_step, calculate_income_tax_eq, calculate_national_insurance_eq,
      salary_repayment, apply_interest_monthly, apply_salary_increase,
      get_next_month_date, daysInMonth, isLeapYear, sample_model]
    norm_num [min_def, max_def]
  unfold simulate
  rw [hb, h0, simulate_loop_succ, if_pos (by exact ⟨rfl, by norm_num⟩), h1,
    simulate_loop_succ, if_neg ?hdone]
  case hdone =>
    intro hg
    exact absurd hg.1 (by decide)

/-- C5: the summary field `Total net salary lost + repayments` is
`round2 (net_salary_lost + (upfront + monthly × months))`, counting only
plan contributions; on the concrete run of `sample_model` (which repays
from income, not from the plan) it differs from
`net_salary_lost + total_repaid`. -/
theorem summary_net_loss_plus_repayments_spec :
    (∀ (m : StudentLoanModel) (s : LoopState),
        (get_summary m s).total_net_salary_lost_plus_repayments
          = round2 (s.net_salary_lost
              + (m.repayment.upfront + m.repayment.monthly * (s.months_repaying : ℚ)))) ∧
    (get_summary sample_model (simulate sample_model (blank_state sample_model))
        ).total_net_salary_lost_plus_repayments
      ≠ (simulate sample_model (blank_state sample_model)).net_salary_lost
        + (simulate sample_model (blank_state sample_model)).total_repaid := by
  refine ⟨fun m s => rfl, ?_⟩
  rw [sample_run_eq]
  norm_num [get_summary, round2, roundHalfEven, sample_model]

/-- Appending a larger element keeps a `≤`-chain a chain. -/
theorem chain'_le_concat {l : List ℚ} {a b : ℚ}
    (h : List.Chain' (· ≤ ·) (l ++ [a])) (hab : a ≤ b) :
    List.Chain' (· ≤ ·) ((l ++ [a]) ++ [b]) := by
  rw [List.chain'_append]
  refine ⟨h, List.chain'_singleton b, ?_⟩
  intro x hx y hy
  have hlast : (l ++ [a]).getLast? = some a := by simp
  rw [hlast] at hx
  simp only [Option.mem_def, List.head?_cons, Option.some.injEq] at hx hy
  subst hx
  subst hy
  exact hab

/-- An append on the right does not change a known head element. -/
theorem head?_append_of_some {α : Type} {l : List α} {x : α}
    (h : l.head? = some x) (l' : List α) : (l ++ l').head? = some x := by
  cases l with
  | nil => simp at h
  | cons a as => simpa using h

/-- C1: the loan balance is never negative: every recorded per-period
balance and the final balance are ≥ 0, and when the run ends with
`repaid_in_full` the final balance is exactly 0. -/
theorem balance_nonneg_spec (m : StudentLoanModel) (prev : LoopState)
    (hP : 0 ≤ m.loan_value) (hRate : 0 ≤ m.repayment_rate) (hInt : 0 ≤ m.interest_rate)
    (hUp : 0 ≤ m.repayment.upfront) (hMon : 0 ≤ m.repayment.monthly) :
    (∀ b ∈ (simulate m prev).balances, 0 ≤ b) ∧
    0 ≤ (simulate m prev).loan_balance ∧
    ((simulate m prev).repaid_in_full = true → (simulate m prev).loan_balance = 0) := by
  have key := simulate_loop_inv m
    (fun s => (∀ b ∈ s.balances, 0 ≤ b) ∧ 0 ≤ s.loan_balance ∧
      (s.repaid_in_full = true → s.loan_balance = 0))
    ?step (months_bound m) (reset_state m prev) ?init
  · exact key
  case step =>
    rintro s hg ⟨hb, hbal, hrep⟩
    refine ⟨?_, (step_loan_balance m s).1, ?_⟩
    · rw [step_balances]
      intro b hbmem
      rcases List.mem_append.mp hbmem with hmem | hmem
      · exact hb b hmem
      · rw [List.mem_singleton] at hmem
        exact hmem ▸ hbal
    · intro hflag
      rcases (step_loan_balance m s).2 hflag with hz | hold
      · exact hz
      · have := hrep hold
        have h2 := hg.2
        linarith
  case init =>
    rw [reset_state_eq]
    refine ⟨fun b hbmem => absurd hbmem (List.not_mem_nil b),
      sub_nonneg.mpr (min_le_right _ _), fun hflag => absurd hflag Bool.false_ne_true⟩

/-- Witness for C1 on the concrete configuration `sample_model`. -/
theorem balance_nonneg_spec_witness :
    (0 ≤ sample_model.loan_value ∧ 0 ≤ sample_model.repayment_rate ∧
      0 ≤ sample_model.interest_rate ∧ 0 ≤ sample_model.repayment.upfront ∧
      0 ≤ sample_model.repayment.monthly) ∧
    ((∀ b ∈ (simulate sample_model (blank_state sample_model)).balances, 0 ≤ b) ∧
      0 ≤ (simulate sample_model (blank_state sample_model)).loan_balance ∧
      ((simulate sample_model (blank_state sample_model)).repaid_in_full = true →
        (simulate sample_model (blank_state sample_model)).loan_balance = 0)) :=
  ⟨⟨by norm_num [sample_model], by norm_num [sample_model], by norm_num [sample_model],
      by norm_num [sample_model], by norm_num [sample_model]⟩,
    balance_nonneg_spec sample_model (blank_state sample_model)
      (by norm_num [sample_model]) (by norm_num [sample_model])
      (by norm_num [sample_model]) (by norm_num [sample_model])
      (by norm_num [sample_model])⟩

/-- C2: the recorded cumulative series `total_repayments` and
`net_salary_lost_history` are non-decreasing entry by entry. -/
theorem history_monotone_spec (m : StudentLoanModel) (prev : LoopState)
    (hP : 0 ≤ m.loan_value) (hRate : 0 ≤ m.repayment_rate)
    (hThr : 0 ≤ m.repayment_threshold) (hUp : 0 ≤ m.repayment.upfront)
    (hMon : 0 ≤ m.repayment.monthly) :
    List.Chain' (· ≤ ·) (simulate m prev).total_repayments ∧
    List.Chain' (· ≤ ·) (simulate m prev).net_salary_lost_history := by
  have key := simulate_loop_inv m
    (fun s => List.Chain' (· ≤ ·) (s.total_repayments ++ [s.total_repaid]) ∧
      List.Chain' (· ≤ ·) (s.net_salary_lost_history ++ [s.net_salary_lost]))
    ?step (months_bound m) (reset_state m prev) ?init
  · exact ⟨(List.chain'_append.mp key.1).1, (List.chain'_append.mp key.2).1⟩
  case step =>
    rintro s hg ⟨h1, h2⟩
    rw [step_total_repayments, step_total_repaid,
      step_net_salary_lost_history, step_net_salary_lost]
    have hsr : 0 ≤ salary_repayment m s.salary :=
      mul_nonneg (le_max_left 0 _) hRate
    have hact : 0 ≤ min (salary_repayment m s.salary / 12 + m.repayment.monthly)
        s.loan_balance :=
      le_min (add_nonneg (div_nonneg hsr (by norm_num)) hMon) (le_of_lt hg.2)
    have hloss : 0 ≤ (net_of s.salary
        - net_of (s.salary - salary_repayment m s.salary)) / 12 :=
      div_nonneg (sub_nonneg.mpr (net_of_mono (by linarith))) (by norm_num)
    exact ⟨chain'_le_concat h1 (by linarith), chain'_le_concat h2 (by linarith)⟩
  case init =>
    rw [reset_state_eq]
    constructor <;> simp

/-- Witness for C2 on the concrete configuration `sample_model`. -/
theorem history_monotone_spec_witness :
    (0 ≤ sample_model.loan_value ∧ 0 ≤ sample_model.repayment_rate ∧
      0 ≤ sample_model.repayment_threshold ∧ 0 ≤ sample_model.repayment.upfront ∧
      0 ≤ sample_model.repayment.monthly) ∧
    (List.Chain' (· ≤ ·) (simulate sample_model (blank_state sample_model)).total_repayments ∧
      List.Chain' (· ≤ ·)
        (simulate sample_model (blank_state sample_model)).net_salary_lost_history) :=
  ⟨⟨by norm_num [sample_model], by norm_num [sample_model], by norm_num [sample_model],
      by norm_num [sample_model], by norm_num [sample_model]⟩,
    history_monotone_spec sample_model (blank_state sample_model)
      (by norm_num [sample_model]) (by norm_num [sample_model])
      (by norm_num [sample_model]) (by norm_num [sample_model])
      (by norm_num [sample_model])⟩

/-- C3: when the upfront payment covers the whole principal, the loop body
never runs: the balance is 0, no months elapse, `repaid_in_full` stays
false, the total repaid is exactly the principal, and the history is empty. -/
theorem upfront_payoff_spec (m : StudentLoanModel) (prev : LoopState)
    (h0 : 0 ≤ m.loan_value) (h : m.loan_value ≤ m.repayment.upfront) :
    (simulate m prev).loan_balance = 0 ∧
    (simulate m prev).months_repaying = 0 ∧
    (simulate m prev).repaid_in_full = false ∧
    (simulate m prev).total_repaid = m.loan_value ∧
    (simulate m prev).dates = [] := by
  have hmin : min m.repayment.upfront m.loan_value = m.loan_value := min_eq_right h
  have hdone : loop_done m (reset_state m prev) := by
    intro hg
    have h2 : 0 < m.loan_value - min m.repayment.upfront m.loan_value := hg.2
    rw [hmin, sub_self] at h2
    exact lt_irrefl 0 h2
  unfold simulate
  rw [simulate_loop_of_done _ _ _ hdone, reset_state_eq]
  refine ⟨?_, rfl, rfl, ?_, rfl⟩
  · show m.loan_value - min m.repayment.upfront m.loan_value = 0
    rw [hmin, sub_self]
  · show 0 + min m.repayment.upfront m.loan_value = m.loan_value
    rw [hmin, zero_add]

/-- Witness for C3 on `sample_payoff_model` (principal 50, upfront 80). -/
theorem upfront_payoff_spec_witness :
    (0 ≤ sample_payoff_model.loan_value ∧
      sample_payoff_model.loan_value ≤ sample_payoff_model.repayment.upfront) ∧
    ((simulate sample_payoff_model (blank_state sample_payoff_model)).loan_balance = 0 ∧
      (simulate sample_payoff_model (blank_state sample_payoff_model)).months_repaying = 0 ∧
      (simulate sample_payoff_model (blank_state sample_payoff_model)).repaid_in_full = false ∧
      (simulate sample_payoff_model (blank_state sample_payoff_model)).total_repaid
        = sample_payoff_model.loan_value ∧
      (simulate sample_payoff_model (blank_state sample_payoff_model)).dates = []) :=
  ⟨⟨by norm_num [sample_payoff_model, sample_model],
      by norm_num [sample_payoff_model, sample_model]⟩,
    upfront_payoff_spec sample_payoff_model (blank_state sample_payoff_model)
      (by norm_num [sample_payoff_model, sample_model])
      (by norm_num [sample_payoff_model, sample_model])⟩

/-- C9: a malformed configuration (write-off date not after the start date,
or a non-positive principal with non-negative upfront) makes the loop guard
false on its first test: `simulate` still runs to completion and leaves a
zero-length history with `months_repaying = 0`. -/
theorem malformed_config_spec (m : StudentLoanModel) (prev : LoopState)
    (h : ¬ Date.ltB m.current_date m.write_off_date = true
        ∨ (m.loan_value ≤ 0 ∧ 0 ≤ m.repayment.upfront)) :
    (simulate m prev).dates = [] ∧
    (simulate m prev).salaries = [] ∧
    (simulate m prev).balances = [] ∧
    (simulate m prev).total_repayments = [] ∧
    (simulate m prev).net_salary_lost_history = [] ∧
    (simulate m prev).salary_after_tax_history = [] ∧
    (simulate m prev).months_repaying = 0 := by
  have hdone : loop_done m (reset_state m prev) := by
    intro hg
    have h1 : Date.ltB m.current_date m.write_off_date = true := hg.1
    have h2 : 0 < m.loan_value - min m.repayment.upfront m.loan_value := hg.2
    rcases h with h | ⟨hlv, hup⟩
    · exact h h1
    · have hmin : min m.repayment.upfront m.loan_value = m.loan_value :=
        min_eq_right (le_trans hlv hup)
      rw [hmin, sub_self] at h2
      exact lt_irrefl 0 h2
  unfold simulate
  rw [simulate_loop_of_done _ _ _ hdone, reset_state_eq]
  exact ⟨rfl, rfl, rfl, rfl, rfl, rfl, rfl⟩

/-- Witness for C9 on `sample_bad_model`, whose write-off date precedes its
start date. -/
theorem malformed_config_spec_witness :
    (¬ Date.ltB sample_bad_model.current_date sample_bad_model.write_off_date = true
      ∨ (sample_bad_model.loan_value ≤ 0 ∧ 0 ≤ sample_bad_model.repayment.upfront)) ∧
    ((simulate sample_bad_model (blank_state sample_bad_model)).dates = [] ∧
      (simulate sample_bad_model (blank_state sample_bad_model)).salaries = [] ∧
      (simulate sample_bad_model (blank_state sample_bad_model)).balances = [] ∧
      (simulate sample_bad_model (blank_state sample_bad_model)).total_repayments = [] ∧
      (simulate sample_bad_model (blank_state sample_bad_model)).net_salary_lost_history
        = [] ∧
      (simulate sample_bad_model (blank_state sample_bad_model)).salary_after_tax_history
        = [] ∧
      (simulate sample_bad_model (blank_state sample_bad_model)).months_repaying = 0) :=
  ⟨Or.inl (by decide),
    malformed_config_spec sample_bad_model (blank_state sample_bad_model)
      (Or.inl (by decide))⟩

/-- C7: `simulate` terminates: each loop iteration advances the current
date by exactly one calendar month, the loop guard is false when the loop
stops, and the number of iterations is at most the number of months between
the start date and the write-off date. -/
theorem simulate_terminates_spec (m : StudentLoanModel) (prev : LoopState)
    (hm : m.current_date.month ≤ 12) :
    (∀ s : LoopState, s.current_date.month ≤ 12 →
        Date.idx (simulate_step m s).current_date = Date.idx s.current_date + 1) ∧
    loop_done m (simulate m prev) ∧
    (simulate m prev).months_repaying ≤ months_bound m := by
  refine ⟨fun s hs => ?_, ?_, ?_⟩
  · rw [step_current_date]
    exact idx_get_next_month _ hs
  · unfold simulate
    apply simulate_loop_terminates
    · exact hm
    · show Date.idx m.write_off_date + 1
          ≤ Date.idx (reset_state m prev).current_date + months_bound m
      have hcd : (reset_state m prev).current_date = m.current_date := rfl
      rw [hcd]
      unfold months_bound
      omega
  · unfold simulate
    have h := simulate_loop_months m (months_bound m) (reset_state m prev)
    have h0 : (reset_state m prev).months_repaying = 0 := rfl
    rw [h0] at h
    omega

/-- Witness for C7 on the concrete configuration `sample_model`. -/
theorem simulate_terminates_spec_witness :
    sample_model.current_date.month ≤ 12 ∧
    (loop_done sample_model (simulate sample_model (blank_state sample_model)) ∧
      (simulate sample_model (blank_state sample_model)).months_repaying
        ≤ months_bound sample_model) :=
  ⟨by decide,
    (simulate_terminates_spec sample_model (blank_state sample_model) (by decide)).2⟩

/-- C10: when the loop runs at least once, the first recorded history entry
already reflects the upfront payment: the first balance is
`principal - min(upfront, principal)` and the first cumulative-repaid value
is `min(upfront, principal)`. -/
theorem first_history_entry_spec (m : StudentLoanModel) (prev : LoopState)
    (hm : m.current_date.month ≤ 12)
    (hg : Date.ltB m.current_date m.write_off_date = true)
    (hb : 0 < m.loan_value - min m.repayment.upfront m.loan_value) :
    (simulate m prev).balances.head?
        = some (m.loan_value - min m.repayment.upfront m.loan_value) ∧
    (simulate m prev).total_repayments.head?
        = some (min m.repayment.upfront m.loan_value) := by
  have hidx : Date.idx m.current_date ≤ Date.idx m.write_off_date := ltB_idx_le hm hg
  have hk : months_bound m = (Date.idx m.write_off_date - Date.idx m.current_date) + 1 := by
    unfold months_bound
    omega
  unfold simulate
  have hguard : loop_guard m (reset_state m prev) := ⟨hg, hb⟩
  rw [hk, simulate_loop_succ, if_pos hguard]
  have key := simulate_loop_inv m
    (fun s => s.balances.head? = some (m.loan_value - min m.repayment.upfront m.loan_value) ∧
      s.total_repayments.head? = some (min m.repayment.upfront m.loan_value))
    ?step (Date.idx m.write_off_date - Date.idx m.current_date)
    (simulate_step m (reset_state m prev)) ?init
  · exact key
  case step =>
    rintro s hg' ⟨h1, h2⟩
    refine ⟨?_, ?_⟩
    · rw [step_balances]
      exact head?_append_of_some h1 _
    · rw [step_total_repayments]
      exact head?_append_of_some h2 _
  case init =>
    refine ⟨?_, ?_⟩
    · rw [step_balances, reset_state_eq]
      simp
    · rw [step_total_repayments, reset_state_eq]
      simp

/-- Witness for C10 on the concrete configuration `sample_model`. -/
theorem first_history_entry_spec_witness :
    (sample_model.current_date.month ≤ 12 ∧
      Date.ltB sample_model.current_date sample_model.write_off_date = true ∧
      0 < sample_model.loan_value
          - min sample_model.repayment.upfront sample_model.loan_value) ∧
    ((simulate sample_model (blank_state sample_model)).balances.head?
        = some (sample_model.loan_value
            - min sample_model.repayment.upfront sample_model.loan_value) ∧
      (simulate sample_model (blank_state sample_model)).total_repayments.head?
        = some (min sample_model.repayment.upfront sample_model.loan_value)) :=
  ⟨⟨by decide, by decide, by norm_num [sample_model, min_def]⟩,
    first_history_entry_spec sample_model (blank_state sample_model)
      (by decide) (by decide) (by norm_num [sample_model, min_def])⟩
